import Mathlib

/-!
# Verification of the SaaS backend (FastAPI + document store)

Shallow embedding of `src/main.py` and `src/schemas.py`: the auth flow
(register / login with salted SHA-256 password hashing and deterministic
token issuance), the blog endpoints, the contact endpoint and the `/test`
diagnostics endpoint, over an explicit document-store state.

The repository imports `db`, `create_document` and `get_documents` from a
`database` module that is not part of the given sources; those are modelled
from the specification (see their doc comments).
-/

namespace SaaS

/-- A BSON-like field value as stored in this backend's documents:
strings, booleans, null (Python `None`), and lists of strings (blog tags). -/
inductive Value where
  | str (s : String)
  | bool (b : Bool)
  | null
  | strList (l : List String)
deriving DecidableEq, Repr

/-- A document: an association list of field name to value (a Python dict;
first binding wins on lookup, mirroring dict semantics). The Mongo `_id`
field is not modelled, being unused by every handler. -/
abbrev Doc := List (String × Value)

/-- Python `d.get(k)` on a dict: `some v` when present, `none` (Python
`None`) when absent. -/
def dictGet (d : Doc) (k : String) : Option Value :=
  d.lookup k

/-- Python `d.get(k, default)` on a dict. -/
def dictGetD (d : Doc) (k : String) (v : Value) : Value :=
  (d.lookup k).getD v

/-- Python truthiness of an optional document (`if existing:` / `if not u:`):
`None` and the empty dict are falsy, any non-empty dict is truthy. -/
def pyTruthy : Option Doc → Bool
  | none => false
  | some d => !d.isEmpty

/-- A Mongo filter `{k1: v1, ...}` matches a document when every filter
field is present in the document with exactly that value. -/
def matchesFilter (filter : Doc) (d : Doc) : Bool :=
  filter.all (fun kv => dictGet d kv.1 == some kv.2)

/-- pymongo `collection.find_one(filter)`: the first matching document in the
collection's natural order, if any (pymongo semantics). -/
def find_one (coll : List Doc) (filter : Doc) : Option Doc :=
  coll.find? (matchesFilter filter)

/-- The database: named collections of documents (plus the database name,
reported by the diagnostics endpoint). -/
structure DB where
  colls : List (String × List Doc)
  name : String
deriving DecidableEq, Repr

/-- The documents of collection `n` (empty when the collection does not
exist yet). -/
def getColl (db : DB) (n : String) : List Doc :=
  (db.colls.lookup n).getD []

/-- Append a document at the end of collection `n`, creating the
collection when absent (Mongo insert order). -/
def insertColl : List (String × List Doc) → String → Doc → List (String × List Doc)
  | [], n, d => [(n, [d])]
  | (k, ds) :: rest, n, d =>
      if k == n then (k, ds ++ [d]) :: rest else (k, ds) :: insertColl rest n d

def insertDoc (db : DB) (n : String) (d : Doc) : DB :=
  { db with colls := insertColl db.colls n d }

/-- Modelled from the spec: `create_document(collection, model)` from the
missing `database` module persists one document into the named collection;
per §6/§9 ("absence of the database must not crash the process", "documented
behavior when unset (degrade, don't crash)") it performs no write and does
not throw when the database handle is unset. -/
def create_document (st : Option DB) (n : String) (d : Doc) : Option DB :=
  match st with
  | none => none
  | some db => some (insertDoc db n d)

/-- Modelled from the spec: `get_documents(collection, filter, limit)` from
the missing `database` module "queries documents where `published == true`,
bounded to at most `limit` results" — generically, the documents matching
the filter, truncated to the first `limit`. -/
def get_documents (db : DB) (n : String) (filter : Doc) (limit : Nat) : List Doc :=
  ((getColl db n).filter (matchesFilter filter)).take limit

/-! ## SHA-256 (`hashlib.sha256(...).hexdigest()`), over byte lists -/

/-- UTF-8 encoding of one code point (Python `str.encode()`). -/
def utf8EncodeNat (c : Nat) : List Nat :=
  if c < 0x80 then [c]
  else if c < 0x800 then
    [0xC0 ||| (c >>> 6), 0x80 ||| (c &&& 0x3F)]
  else if c < 0x10000 then
    [0xE0 ||| (c >>> 12), 0x80 ||| ((c >>> 6) &&& 0x3F), 0x80 ||| (c &&& 0x3F)]
  else
    [0xF0 ||| (c >>> 18), 0x80 ||| ((c >>> 12) &&& 0x3F),
     0x80 ||| ((c >>> 6) &&& 0x3F), 0x80 ||| (c &&& 0x3F)]

/-- The UTF-8 bytes of a string, as naturals below 256. -/
def utf8Bytes (s : String) : List Nat :=
  s.data.flatMap (fun c => utf8EncodeNat c.toNat)

/-- The sixteen lowercase hex digits. -/
def hexDigits : List Char :=
  "0123456789abcdef".data

def hexDigit (n : Nat) : Char :=
  hexDigits.getD (n % 16) '0'

/-- Lowercase hex encoding of a byte list (`hexdigest`, `secrets.token_hex`). -/
def bytesToHex (bs : List Nat) : String :=
  ⟨bs.flatMap (fun b => [hexDigit (b / 16 % 16), hexDigit (b % 16)])⟩

/-- 32-bit right rotation. -/
def rotr (n x : Nat) : Nat :=
  ((x >>> n) ||| (x <<< (32 - n))) % 4294967296

/-- 32-bit bitwise complement. -/
def compl32 (x : Nat) : Nat := 4294967295 - x % 4294967296

def chFn (x y z : Nat) : Nat := (x &&& y) ^^^ (compl32 x &&& z)

def majFn (x y z : Nat) : Nat := (x &&& y) ^^^ (x &&& z) ^^^ (y &&& z)

def bigSigma0 (x : Nat) : Nat := rotr 2 x ^^^ rotr 13 x ^^^ rotr 22 x

def bigSigma1 (x : Nat) : Nat := rotr 6 x ^^^ rotr 11 x ^^^ rotr 25 x

def smallSigma0 (x : Nat) : Nat := rotr 7 x ^^^ rotr 18 x ^^^ (x >>> 3)

def smallSigma1 (x : Nat) : Nat := rotr 17 x ^^^ rotr 19 x ^^^ (x >>> 10)

/-- The SHA-256 round constants (FIPS 180-4), written in decimal. -/
def sha256K : List Nat :=
  [1116352408, 1899447441, 3049323471, 3921009573, 961987163, 1508970993,
   2453635748, 2870763221, 3624381080, 310598401, 607225278, 1426881987,
   1925078388, 2162078206, 2614888103, 3248222580, 3835390401, 4022224774,
   264347078, 604807628, 770255983, 1249150122, 1555081692, 1996064986,
   2554220882, 2821834349, 2952996808, 3210313671, 3336571891, 3584528711,
   113926993, 338241895, 666307205, 773529912, 1294757372, 1396182291,
   1695183700, 1986661051, 2177026350, 2456956037, 2730485921, 2820302411,
   3259730800, 3345764771, 3516065817, 3600352804, 4094571909, 275423344,
   430227734, 506948616, 659060556, 883997877, 958139571, 1322822218,
   1537002063, 1747873779, 1955562222, 2024104815, 2227730452, 2361852424,
   2428436474, 2756734187, 3204031479, 3329325298]

/-- The SHA-256 initial hash value (FIPS 180-4), written in decimal. -/
def sha256H0 : List Nat :=
  [1779033703, 3144134277, 1013904242, 2773480762,
   1359893119, 2600822924, 528734635, 1541459225]

/-- Big-endian bytes of `v` on `n` bytes. -/
def beBytes (n v : Nat) : List Nat :=
  (List.range n).map (fun i => (v >>> (8 * (n - 1 - i))) % 256)

/-- SHA-256 padding: append `0x80`, zeros to 56 mod 64, then the bit
length on 8 big-endian bytes. -/
def sha256Pad (msg : List Nat) : List Nat :=
  let zeros := (64 + 56 - ((msg.length + 1) % 64)) % 64
  msg ++ [0x80] ++ List.replicate zeros 0 ++ beBytes 8 (msg.length * 8)

/-- Group bytes into 32-bit big-endian words. -/
def bytesToWords : List Nat → List Nat
  | b0 :: b1 :: b2 :: b3 :: rest => (((b0 * 256 + b1) * 256 + b2) * 256 + b3) :: bytesToWords rest
  | _ => []

/-- Extend the 16 chunk words to the 64-entry message schedule. -/
def extendWords (w16 : List Nat) : List Nat :=
  let w := (List.range 48).foldl
    (fun (w : Array Nat) _ =>
      let n := w.size
      w.push ((smallSigma1 (w.getD (n - 2) 0) + w.getD (n - 7) 0 +
               smallSigma0 (w.getD (n - 15) 0) + w.getD (n - 16) 0) % 4294967296))
    w16.toArray
  w.toList

/-- The eight working variables of the compression loop. -/
structure H8 where
  a : Nat
  b : Nat
  c : Nat
  d : Nat
  e : Nat
  f : Nat
  g : Nat
  h : Nat

/-- One SHA-256 compression round. -/
def sha256Round (s : H8) (k w : Nat) : H8 :=
  let t1 := (s.h + bigSigma1 s.e + chFn s.e s.f s.g + k + w) % 4294967296
  let t2 := (bigSigma0 s.a + majFn s.a s.b s.c) % 4294967296
  ⟨(t1 + t2) % 4294967296, s.a, s.b, s.c, (s.d + t1) % 4294967296, s.e, s.f, s.g⟩

/-- Process one 64-byte chunk, updating the running hash values. -/
def processChunk (hs : List Nat) (chunk : List Nat) : List Nat :=
  let ws := extendWords (bytesToWords chunk)
  let s0 : H8 := ⟨hs.getD 0 0, hs.getD 1 0, hs.getD 2 0, hs.getD 3 0,
                  hs.getD 4 0, hs.getD 5 0, hs.getD 6 0, hs.getD 7 0⟩
  let s := (sha256K.zip ws).foldl (fun s kw => sha256Round s kw.1 kw.2) s0
  [(hs.getD 0 0 + s.a) % 4294967296, (hs.getD 1 0 + s.b) % 4294967296,
   (hs.getD 2 0 + s.c) % 4294967296, (hs.getD 3 0 + s.d) % 4294967296,
   (hs.getD 4 0 + s.e) % 4294967296, (hs.getD 5 0 + s.f) % 4294967296,
   (hs.getD 6 0 + s.g) % 4294967296, (hs.getD 7 0 + s.h) % 4294967296]

/-- Fold the padded message 64 bytes at a time (structural recursion on a
byte-count bound, which the 64-byte steps can never exhaust). -/
def processAllGo : Nat → List Nat → List Nat → List Nat
  | _, hs, [] => hs
  | 0, hs, _ => hs
  | fuel + 1, hs, msg => processAllGo fuel (processChunk hs (msg.take 64)) (msg.drop 64)

def processAll (hs : List Nat) (msg : List Nat) : List Nat :=
  processAllGo msg.length hs msg

/-- SHA-256 of a byte list, as 32 bytes. -/
def sha256 (msg : List Nat) : List Nat :=
  (processAll sha256H0 (sha256Pad msg)).flatMap (beBytes 4)

/-- Python `hashlib.sha256(s.encode()).hexdigest()`. -/
def sha256HexStr (s : String) : String :=
  bytesToHex (sha256 (utf8Bytes s))

/-! ## Request / response models (`main.py`, `schemas.py`) -/

structure RegisterRequest where
  name : String
  email : String
  password : String
deriving DecidableEq, Repr

structure LoginRequest where
  email : String
  password : String
deriving DecidableEq, Repr

structure AuthResponse where
  token : String
  name : String
  plan : String
deriving DecidableEq, Repr

/-- Schema `schemas.User`: the users collection schema. -/
structure User where
  name : String
  email : String
  password_hash : String
  password_salt : String
  avatar_url : Option String
  plan : String
  is_verified : Bool
deriving DecidableEq, Repr

/-- The document persisted for a `User` model (field order follows the
schema; `None` is stored as null). -/
def userToDoc (u : User) : Doc :=
  [("name", .str u.name), ("email", .str u.email),
   ("password_hash", .str u.password_hash), ("password_salt", .str u.password_salt),
   ("avatar_url", match u.avatar_url with | none => .null | some s => .str s),
   ("plan", .str u.plan), ("is_verified", .bool u.is_verified)]

structure BlogSummary where
  title : String
  slug : String
  excerpt : String
  tags : List String
  author : String
  cover_image : Option String
deriving DecidableEq, Repr

structure BlogDetail where
  title : String
  slug : String
  excerpt : String
  tags : List String
  author : String
  cover_image : Option String
  content : String
deriving DecidableEq, Repr

structure ContactRequest where
  name : String
  email : String
  company : Option String
  topic : Option String
  message : String
deriving DecidableEq, Repr

structure ContactResponse where
  ok : Bool
deriving DecidableEq, Repr

/-- The document persisted for a `ContactMessage` model (field order
follows the schema; `None` is stored as null). -/
def contactToDoc (r : ContactRequest) : Doc :=
  [("name", .str r.name), ("email", .str r.email),
   ("company", match r.company with | none => .null | some s => .str s),
   ("message", .str r.message),
   ("topic", match r.topic with | none => .null | some s => .str s)]

/-- Outcome of one handler call: a typed 200 response, an `HTTPException`
with status code and detail, or an unhandled exception (crash) such as a
pydantic response-validation failure. -/
inductive EndpointResult (α : Type) where
  | ok (a : α)
  | err (code : Nat) (detail : String)
  | crash
deriving DecidableEq, Repr

/-! ## Auth endpoints (`main.py`) -/

/-- Helper `hash_password(password, salt) = sha256((salt + password).encode()).hexdigest()`. -/
def hash_password (password salt : String) : String :=
  sha256HexStr (salt ++ password)

/-- Endpoint `POST /api/auth/register`. `rand` stands for the 16 random bytes drawn
by `secrets.token_hex(16)`; the state is the optional database handle. -/
def register (req : RegisterRequest) (rand : List Nat) (st : Option DB) :
    EndpointResult AuthResponse × Option DB :=
  let existing := match st with
    | some db => find_one (getColl db "user") [("email", .str req.email)]
    | none => none
  if pyTruthy existing then
    (.err 400 "Email already registered", st)
  else
    let salt := bytesToHex rand
    let pwd_hash := hash_password req.password salt
    let user : User :=
      { name := req.name, email := req.email, password_hash := pwd_hash,
        password_salt := salt, avatar_url := none, plan := "free", is_verified := false }
    let st' := create_document st "user" (userToDoc user)
    let token := sha256HexStr (req.email ++ salt)
    (.ok { token := token, name := user.name, plan := user.plan }, st')

/-- Endpoint `POST /api/auth/login`. Python's `u.get("password_salt")` fed into
`hash_password` raises (crash) when the salt is not a string; the stored
hash is compared by Python `!=`, which is a plain structural comparison
against any value, `None` included. The response model requires `name` and
`plan` to be strings, else pydantic raises (crash). -/
def login (req : LoginRequest) (st : Option DB) :
    EndpointResult AuthResponse × Option DB :=
  let u := match st with
    | some db => find_one (getColl db "user") [("email", .str req.email)]
    | none => none
  if !pyTruthy u then
    (.err 401 "Invalid credentials", st)
  else
    match u with
    | none => (.crash, st)
    | some d =>
      match dictGet d "password_salt" with
      | some (.str salt) =>
        let expected := dictGet d "password_hash"
        if some (Value.str (hash_password req.password salt)) ≠ expected then
          (.err 401 "Invalid credentials", st)
        else
          let token := sha256HexStr (req.email ++ salt)
          match dictGet d "name", dictGetD d "plan" (.str "free") with
          | some (.str nm), .str pl => (.ok { token := token, name := nm, plan := pl }, st)
          | _, _ => (.crash, st)
      | _ => (.crash, st)

/-! ## Blog endpoints (`main.py`) -/

/-- Build a `BlogSummary` from a document the way the handler does,
applying pydantic validation: `title`, `slug`, `excerpt` must be strings,
`tags` defaults to `[]` and must be a list of strings, `author` defaults
to "Team", `cover_image` is an optional string. `none` is a pydantic
`ValidationError`. -/
def mkBlogSummary (p : Doc) : Option BlogSummary :=
  match dictGet p "title", dictGet p "slug", dictGet p "excerpt" with
  | some (.str title), some (.str slug), some (.str excerpt) =>
    match dictGetD p "tags" (.strList []) with
    | .strList tags =>
      match dictGetD p "author" (.str "Team") with
      | .str author =>
        match dictGet p "cover_image" with
        | none => some ⟨title, slug, excerpt, tags, author, none⟩
        | some .null => some ⟨title, slug, excerpt, tags, author, none⟩
        | some (.str c) => some ⟨title, slug, excerpt, tags, author, some c⟩
        | some _ => none
      | _ => none
    | _ => none
  | _, _, _ => none

/-- Build a `BlogDetail` likewise; `content` defaults to `""`. -/
def mkBlogDetail (p : Doc) : Option BlogDetail :=
  match mkBlogSummary p with
  | none => none
  | some s =>
    match dictGetD p "content" (.str "") with
    | .str content =>
        some ⟨s.title, s.slug, s.excerpt, s.tags, s.author, s.cover_image, content⟩
    | _ => none

/-- The handler's `for p in posts: res.append(BlogSummary(...))` loop: the
whole request fails (pydantic exception) as soon as one document fails
validation. -/
def buildSummaries : List Doc → Option (List BlogSummary)
  | [] => some []
  | p :: ps =>
    match mkBlogSummary p with
    | none => none
    | some s =>
      match buildSummaries ps with
      | none => none
      | some rest => some (s :: rest)

/-- Endpoint `GET /api/blog`: list published posts as summaries. -/
def list_blog (st : Option DB) : EndpointResult (List BlogSummary) × Option DB :=
  let posts := match st with
    | some db => get_documents db "blogpost" [("published", .bool true)] 50
    | none => []
  match buildSummaries posts with
  | some res => (.ok res, st)
  | none => (.crash, st)

/-- Endpoint `GET /api/blog/\x7bslug\x7d`: fetch one published post by slug. -/
def get_blog (slug : String) (st : Option DB) : EndpointResult BlogDetail × Option DB :=
  let p := match st with
    | some db => find_one (getColl db "blogpost") [("slug", .str slug), ("published", .bool true)]
    | none => none
  if !pyTruthy p then
    (.err 404 "Not found", st)
  else
    match p with
    | none => (.crash, st)
    | some d =>
      match mkBlogDetail d with
      | some detail => (.ok detail, st)
      | none => (.crash, st)

/-! ## Contact endpoint (`main.py`) -/

/-- Endpoint `POST /api/contact`: persist one contact message, acknowledge with
`ok = true`. -/
def contact (req : ContactRequest) (st : Option DB) :
    EndpointResult ContactResponse × Option DB :=
  let st' := create_document st "contactmessage" (contactToDoc req)
  (.ok { ok := true }, st')

/-! ## Diagnostics endpoint `GET /test` (`main.py`) -/

/-- The response dict assembled by `test_database`. -/
structure TestResponse where
  backend : String
  database : String
  database_url : Option String
  database_name : Option String
  connection_status : String
  collections : List String
deriving DecidableEq, Repr

/-- Python `str(e)[:80]`: the first 80 characters. -/
def pySlice80 (e : String) : String :=
  ⟨e.data.take 80⟩

/-- Endpoint `GET /test`. `dbUrlSet` is whether `DATABASE_URL` is set in the
environment; `namesRes` is what `db.list_collection_names()` returns or
raises. Both `try/except` blocks are modelled: a listing failure is caught
and reported in the `database` field, truncated to 80 characters. -/
def test_database (st : Option DB) (dbUrlSet : Bool)
    (namesRes : Except String (List String)) : TestResponse :=
  match st with
  | none =>
    { backend := "✅ Running", database := "⚠️ Available but not initialized",
      database_url := none, database_name := none,
      connection_status := "Not Connected", collections := [] }
  | some db =>
    let dname := if db.name = "" then "Unknown" else db.name
    let base : TestResponse :=
      { backend := "✅ Running", database := "✅ Available",
        database_url := some (if dbUrlSet then "✅ Set" else "❌ Not Set"),
        database_name := some dname,
        connection_status := "Connected", collections := [] }
    match namesRes with
    | .ok cols =>
      { base with collections := cols.take 10, database := "✅ Connected & Working" }
    | .error e =>
      { base with database := "⚠️ Connected but Error: " ++ pySlice80 e }

/-! ## Derived notions used by the statements -/

/-- A stored user document is well formed when the fields the login handler
feeds into `hash_password` and into the response model are strings, as every
document written by `register` is (`schemas.User`): `password_salt` and
`name` are strings, and `plan` — after the handler's `"free"` default — is a
string. -/
def userDocWF (d : Doc) : Bool :=
  (match dictGet d "password_salt" with | some (.str _) => true | _ => false) &&
  (match dictGet d "name" with | some (.str _) => true | _ => false) &&
  (match dictGetD d "plan" (.str "free") with | .str _ => true | _ => false)

/-- The condition under which `login` answers 200: the email lookup finds a
document whose stored salt is a string and whose stored `password_hash`
equals `SHA256(stored_salt || given_password)` hex-encoded. -/
def loginSuccessCond (db : DB) (req : LoginRequest) : Prop :=
  ∃ d salt, find_one (getColl db "user") [("email", .str req.email)] = some d ∧
    dictGet d "password_salt" = some (.str salt) ∧
    dictGet d "password_hash" = some (.str (hash_password req.password salt))

/-- Drop every `content` binding from a document (used to state that blog
summaries do not depend on the full content field). -/
def eraseContent (d : Doc) : Doc :=
  d.filter (fun kv => !(kv.1 == "content"))

/-- The `User` model `register` builds for a fresh email, given the 16
random bytes behind `secrets.token_hex(16)`. -/
def regUser (req : RegisterRequest) (rand : List Nat) : User :=
  { name := req.name, email := req.email,
    password_hash := hash_password req.password (bytesToHex rand),
    password_salt := bytesToHex rand, avatar_url := none,
    plan := "free", is_verified := false }

/-- The spec's "degrades to returning an empty result or a clearly marked
unavailable/error status", read on an auth endpoint outcome: an
`AuthResponse` success payload is never an empty result, so only an error
outcome qualifies as degraded. -/
def authOutcomeDegraded (r : EndpointResult AuthResponse) : Bool :=
  match r with
  | .err _ _ => true
  | _ => false

/-! ## Concrete inputs for witnesses and counterexamples -/

/-- A stored user document as `register` would have written it, with
literal hash/salt strings. -/
def exUserDoc : Doc :=
  [("name", .str "Ann"), ("email", .str "ann@x.com"),
   ("password_hash", .str "h1"), ("password_salt", .str "s1"),
   ("avatar_url", .null), ("plan", .str "free"), ("is_verified", .bool false)]

/-- A database holding exactly that one user. -/
def exDb : DB := ⟨[("user", [exUserDoc])], "appdb"⟩

/-- An empty database. -/
def emptyDb : DB := ⟨[], "appdb"⟩

def annReq : RegisterRequest := ⟨"Ann", "ann@x.com", "pw1"⟩

/-- Sixteen concrete random bytes standing for `secrets.token_hex(16)`. -/
def exRand : List Nat := [0, 1, 2, 3, 4, 5, 6, 7, 8, 9, 10, 11, 12, 13, 14, 15]

/-- The salt those bytes hex-encode to. -/
def exSalt : String := bytesToHex exRand

/-- The state after registering `annReq` against the empty database. -/
def annDb : DB := insertDoc emptyDb "user" (userToDoc (regUser annReq exRand))

/-- A stored user document without a `plan` field whose hash matches
password "pw2". -/
def bobDoc : Doc :=
  [("name", .str "Bob"), ("email", .str "bob@x.com"),
   ("password_hash", .str (hash_password "pw2" "s2")), ("password_salt", .str "s2")]

def bobDb : DB := ⟨[("user", [bobDoc])], "appdb"⟩

/-- An unpublished blog post. -/
def draftDoc : Doc :=
  [("title", .str "Draft"), ("slug", .str "draft"), ("excerpt", .str "E"),
   ("content", .str "C"), ("published", .bool false)]

/-- A published blog post. -/
def pubDoc : Doc :=
  [("title", .str "Hello"), ("slug", .str "hello"), ("excerpt", .str "E"),
   ("content", .str "C"), ("published", .bool true)]

def blogDb : DB := ⟨[("blogpost", [draftDoc, pubDoc])], "appdb"⟩

/-! ## Helper lemmas -/

theorem find_one_eq_some {coll : List Doc} {f d : Doc} (h : find_one coll f = some d) :
    d ∈ coll ∧ matchesFilter f d = true :=
  ⟨List.mem_of_find?_eq_some h, List.find?_some h⟩

theorem matchesFilter_lookup {f d : Doc} (h : matchesFilter f d = true) :
    ∀ kv ∈ f, dictGet d kv.1 = some kv.2 := by
  intro kv hkv
  simp only [matchesFilter, List.all_eq_true] at h
  have := h kv hkv
  exact eq_of_beq this

theorem lookup_isEmpty_false {d : Doc} {k : String} {v : Value}
    (h : d.lookup k = some v) : d.isEmpty = false := by
  cases d with
  | nil => simp [List.lookup] at h
  | cons a l => simp [List.isEmpty]

theorem pyTruthy_of_find_one {coll : List Doc} {k : String} {v : Value} {f : Doc} {d : Doc}
    (h : find_one coll ((k, v) :: f) = some d) : pyTruthy (some d) = true := by
  have hm := (find_one_eq_some h).2
  have hl := matchesFilter_lookup hm (k, v) (by simp)
  simp only [pyTruthy, Bool.not_eq_true']
  exact lookup_isEmpty_false hl

theorem lookup_cons_eq {β : Type} {a : String} {b : β} {es : List (String × β)} :
    List.lookup a ((a, b) :: es) = some b := by
  simp [List.lookup]

theorem lookup_cons_ne {β : Type} {a k : String} {b : β} {es : List (String × β)}
    (h : a ≠ k) : List.lookup a ((k, b) :: es) = List.lookup a es := by
  have hb : (a == k) = false := by simp [h]
  simp [List.lookup, hb]

theorem find_one_append_singleton {l : List Doc} {f d : Doc}
    (h : find_one l f = none) :
    find_one (l ++ [d]) f = if matchesFilter f d then some d else none := by
  simp only [find_one] at h ⊢
  rw [List.find?_append, h]
  cases hm : matchesFilter f d <;> simp [List.find?, hm]

theorem lookup_insertColl_self (l : List (String × List Doc)) (n : String) (d : Doc) :
    (insertColl l n d).lookup n = some ((l.lookup n).getD [] ++ [d]) := by
  induction l with
  | nil => simp [insertColl, List.lookup]
  | cons kv rest ih =>
    obtain ⟨k, ds⟩ := kv
    by_cases hk : k = n
    · subst hk
      simp [insertColl, lookup_cons_eq]
    · simp only [insertColl, beq_iff_eq, hk, if_false]
      rw [lookup_cons_ne (fun hc => hk hc.symm), lookup_cons_ne (fun hc => hk hc.symm), ih]

theorem lookup_insertColl_ne (l : List (String × List Doc)) (n m : String) (d : Doc)
    (h : m ≠ n) : (insertColl l n d).lookup m = l.lookup m := by
  induction l with
  | nil =>
    have hb : (m == n) = false := by simp [h]
    simp [insertColl, List.lookup, hb]
  | cons kv rest ih =>
    obtain ⟨k, ds⟩ := kv
    by_cases hk : k = n
    · subst hk
      simp only [insertColl, beq_self_eq_true, if_true]
      rw [lookup_cons_ne h, lookup_cons_ne h]
    · simp only [insertColl, beq_iff_eq, hk, if_false]
      by_cases hm : m = k
      · subst hm; rw [lookup_cons_eq, lookup_cons_eq]
      · rw [lookup_cons_ne hm, lookup_cons_ne hm, ih]

theorem getColl_insertDoc_self (db : DB) (n : String) (d : Doc) :
    getColl (insertDoc db n d) n = getColl db n ++ [d] := by
  simp [getColl, insertDoc, lookup_insertColl_self]

theorem getColl_insertDoc_ne (db : DB) (n m : String) (d : Doc) (h : m ≠ n) :
    getColl (insertDoc db n d) m = getColl db m := by
  simp [getColl, insertDoc, lookup_insertColl_ne _ _ _ _ h]

theorem buildSummaries_length {ps : List Doc} {l : List BlogSummary}
    (h : buildSummaries ps = some l) : l.length = ps.length := by
  induction ps generalizing l with
  | nil => simp [buildSummaries] at h; simp [← h]
  | cons p ps ih =>
    simp only [buildSummaries] at h
    cases hs : mkBlogSummary p with
    | none => rw [hs] at h; simp at h
    | some s =>
      rw [hs] at h
      cases hb : buildSummaries ps with
      | none => rw [hb] at h; simp at h
      | some rest =>
        rw [hb] at h
        simp only [Option.some.injEq] at h
        subst h
        simp [ih hb]

theorem buildSummaries_mem {ps : List Doc} {l : List BlogSummary} {s : BlogSummary}
    (h : buildSummaries ps = some l) (hs : s ∈ l) :
    ∃ p ∈ ps, mkBlogSummary p = some s := by
  induction ps generalizing l with
  | nil => simp [buildSummaries] at h; subst h; simp at hs
  | cons p ps ih =>
    simp only [buildSummaries] at h
    cases h1 : mkBlogSummary p with
    | none => rw [h1] at h; simp at h
    | some s1 =>
      rw [h1] at h
      cases h2 : buildSummaries ps with
      | none => rw [h2] at h; simp at h
      | some rest =>
        rw [h2] at h
        simp only [Option.some.injEq] at h
        subst h
        rcases List.mem_cons.mp hs with hh | ht
        · exact ⟨p, by simp, by rw [h1, hh]⟩
        · obtain ⟨q, hq, hq2⟩ := ih h2 ht
          exact ⟨q, by simp [hq], hq2⟩

theorem lookup_eraseContent {d : Doc} {k : String} (h : k ≠ "content") :
    (eraseContent d).lookup k = d.lookup k := by
  induction d with
  | nil => simp [eraseContent]
  | cons kv rest ih =>
    obtain ⟨k', v⟩ := kv
    by_cases hk : k' = "content"
    · subst hk
      simp only [eraseContent, List.filter_cons, beq_self_eq_true, Bool.not_true,
        if_false] at ih ⊢
      rw [lookup_cons_ne h]
      exact ih
    · have hb : (k' == "content") = false := by simp [hk]
      simp only [eraseContent, List.filter_cons, hb, Bool.not_false, if_true] at ih ⊢
      by_cases hm : k = k'
      · subst hm; rw [lookup_cons_eq, lookup_cons_eq]
      · rw [lookup_cons_ne hm, lookup_cons_ne hm]
        exact ih

theorem mkBlogSummary_eraseContent (d : Doc) :
    mkBlogSummary (eraseContent d) = mkBlogSummary d := by
  simp only [mkBlogSummary, dictGet, dictGetD,
    lookup_eraseContent (d := d) (k := "title") (by decide),
    lookup_eraseContent (d := d) (k := "slug") (by decide),
    lookup_eraseContent (d := d) (k := "excerpt") (by decide),
    lookup_eraseContent (d := d) (k := "tags") (by decide),
    lookup_eraseContent (d := d) (k := "author") (by decide),
    lookup_eraseContent (d := d) (k := "cover_image") (by decide)]

theorem length_flatMap_pair (bs : List Nat) (f g : Nat → Char) :
    (bs.flatMap (fun b => [f b, g b])).length = 2 * bs.length := by
  induction bs with
  | nil => simp
  | cons b rest ih => simp [ih]; omega

theorem hexDigit_mem (n : Nat) : hexDigit n ∈ hexDigits := by
  have h : n % 16 < 16 := Nat.mod_lt _ (by decide)
  unfold hexDigit
  interval_cases hh : (n % 16) <;> decide

theorem bytesToHex_length (bs : List Nat) : (bytesToHex bs).length = 2 * bs.length := by
  simp only [bytesToHex, String.length]
  exact length_flatMap_pair bs _ _

theorem bytesToHex_hex (bs : List Nat) : ∀ c ∈ (bytesToHex bs).data, c ∈ hexDigits := by
  intro c hc
  simp only [bytesToHex] at hc
  rw [List.mem_flatMap] at hc
  obtain ⟨b, _, hb⟩ := hc
  simp only [List.mem_cons, List.not_mem_nil, or_false] at hb
  rcases hb with h | h <;> (rw [h]; exact hexDigit_mem _)

theorem userToDoc_email (u : User) :
    dictGet (userToDoc u) "email" = some (.str u.email) := by
  simp only [userToDoc, dictGet]
  rw [lookup_cons_ne (by decide), lookup_cons_eq]

theorem userToDoc_salt (u : User) :
    dictGet (userToDoc u) "password_salt" = some (.str u.password_salt) := by
  simp only [userToDoc, dictGet]
  rw [lookup_cons_ne (by decide), lookup_cons_ne (by decide),
    lookup_cons_ne (by decide), lookup_cons_eq]

theorem login_not_found {db : DB} {req : LoginRequest}
    (hfo : find_one (getColl db "user") [("email", .str req.email)] = none) :
    login req (some db) = (.err 401 "Invalid credentials", some db) := by
  simp [login, hfo, pyTruthy]

theorem login_found {db : DB} {req : LoginRequest} {d : Doc} {s : String}
    (hfo : find_one (getColl db "user") [("email", .str req.email)] = some d)
    (hsalt : dictGet d "password_salt" = some (.str s)) :
    (dictGet d "password_hash" ≠ some (.str (hash_password req.password s)) →
      login req (some db) = (.err 401 "Invalid credentials", some db))
    ∧ (dictGet d "password_hash" = some (.str (hash_password req.password s)) →
        login req (some db) =
          (match dictGet d "name", dictGetD d "plan" (.str "free") with
            | some (.str nm), .str pl =>
                (.ok ⟨sha256HexStr (req.email ++ s), nm, pl⟩, some db)
            | _, _ => (.crash, some db))) := by
  have htr : pyTruthy (some d) = true := pyTruthy_of_find_one hfo
  constructor
  · intro h
    simp only [login, hfo, htr, Bool.not_true, Bool.false_eq_true, if_false, hsalt]
    rw [if_pos (Ne.symm h)]
  · intro h
    simp only [login, hfo, htr, Bool.not_true, Bool.false_eq_true, if_false, hsalt]
    rw [if_neg (not_not_intro h.symm)]

/-- What `register` does on a fresh email: the exact response and the
exact state written. -/
theorem register_fresh_eq {db : DB} {req : RegisterRequest} {rand : List Nat}
    (hfresh : find_one (getColl db "user") [("email", .str req.email)] = none) :
    register req rand (some db) =
      (.ok ⟨sha256HexStr (req.email ++ bytesToHex rand), req.name, "free"⟩,
       some (insertDoc db "user" (userToDoc (regUser req rand)))) := by
  simp only [register, hfresh, pyTruthy, Bool.false_eq_true, if_false, create_document]
  rfl

/-- Any 200 answer of `login` carries the deterministic token
`SHA256(email || stored_salt)`. -/
theorem login_ok_token {db : DB} {req : LoginRequest} {d : Doc} {s : String}
    {a : AuthResponse} {st2 : Option DB}
    (hfo : find_one (getColl db "user") [("email", .str req.email)] = some d)
    (hsalt : dictGet d "password_salt" = some (.str s))
    (hlog : login req (some db) = (.ok a, st2)) :
    a.token = sha256HexStr (req.email ++ s) := by
  by_cases hcmp : dictGet d "password_hash" = some (.str (hash_password req.password s))
  · have := (login_found hfo hsalt).2 hcmp
    rw [this] at hlog
    cases hn : dictGet d "name" with
    | none => rw [hn] at hlog; simp at hlog
    | some v =>
      rw [hn] at hlog
      cases v with
      | str nm =>
        cases hp : dictGetD d "plan" (.str "free") with
        | str pl =>
          rw [hp] at hlog
          simp only [Prod.mk.injEq, EndpointResult.ok.injEq] at hlog
          rw [← hlog.1]
        | bool b => rw [hp] at hlog; simp at hlog
        | null => rw [hp] at hlog; simp at hlog
        | strList l => rw [hp] at hlog; simp at hlog
      | bool b => simp at hlog
      | null => simp at hlog
      | strList l => simp at hlog
  · have := (login_found hfo hsalt).1 hcmp
    rw [this] at hlog
    simp at hlog

/-! ## Claim theorems -/

/-- C1: when some user document already carries the requested email,
`register` answers HTTP 400 "Email already registered" and leaves the
whole store — the user collection and every other collection — exactly as
it was (the returned state is the input state). -/
theorem register_conflict_no_write (db : DB) (req : RegisterRequest) (rand : List Nat)
    (d : Doc) (h : find_one (getColl db "user") [("email", .str req.email)] = some d) :
    register req rand (some db) = (.err 400 "Email already registered", some db) := by
  have ht := pyTruthy_of_find_one h
  simp only [register, h, ht, if_true]

theorem register_conflict_no_write_witness :
    register annReq exRand (some exDb) = (.err 400 "Email already registered", some exDb) :=
  register_conflict_no_write exDb annReq exRand exUserDoc (by decide)

/-- C8: login is read-only — whatever the request and whatever the
outcome, the handler returns the document store unchanged. -/
theorem login_read_only (req : LoginRequest) (st : Option DB) :
    (login req st).2 = st := by
  cases st with
  | none => rfl
  | some db =>
    simp only [login]
    repeat' split <;> try rfl

/-- C5 (amended): with the database handle unset, no endpoint throws —
the blog list degrades to an empty list, blog detail to 404 and login to
401, while `register` and `contact` return their ordinary success payloads
(a token, resp. `ok = true`) and write nothing. -/
theorem no_db_no_crash (reqR : RegisterRequest) (rand : List Nat) (reqL : LoginRequest)
    (slug : String) (reqC : ContactRequest) :
    register reqR rand none
      = (.ok ⟨sha256HexStr (reqR.email ++ bytesToHex rand), reqR.name, "free"⟩, none)
    ∧ login reqL none = (.err 401 "Invalid credentials", none)
    ∧ list_blog none = (.ok [], none)
    ∧ get_blog slug none = (.err 404 "Not found", none)
    ∧ contact reqC none = (.ok ⟨true⟩, none) :=
  ⟨rfl, rfl, rfl, rfl, rfl⟩

/-- C5 (counterexample): with the database absent, `register` neither
returns an empty result nor a marked unavailable/error status — it answers
with a full success payload, against the claim's "degrades to returning an
empty result or a clearly marked unavailable/error status". -/
theorem register_no_db_not_degraded :
    (register annReq exRand none).1
      = .ok ⟨sha256HexStr ("ann@x.com" ++ bytesToHex exRand), "Ann", "free"⟩
    ∧ authOutcomeDegraded ((register annReq exRand none).1) = false :=
  ⟨rfl, rfl⟩

/-- C10: `/test` reports at most the first 10 collection names; when
listing collections fails, it still returns a response whose `database`
field carries the error text truncated to at most 80 characters instead of
propagating the exception. -/
theorem test_database_bounds (db : DB) (dbUrlSet : Bool) :
    (∀ names, (test_database (some db) dbUrlSet (.ok names)).collections = names.take 10
      ∧ (test_database (some db) dbUrlSet (.ok names)).collections.length ≤ 10)
    ∧ (∀ e, (test_database (some db) dbUrlSet (.error e)).database
          = "⚠️ Connected but Error: " ++ pySlice80 e
        ∧ (pySlice80 e).length ≤ 80
        ∧ (test_database (some db) dbUrlSet (.error e)).backend = "✅ Running"
        ∧ (test_database (some db) dbUrlSet (.error e)).connection_status = "Connected") := by
  constructor
  · intro names
    refine ⟨rfl, ?_⟩
    have h : (test_database (some db) dbUrlSet (.ok names)).collections.length
        = (names.take 10).length := rfl
    rw [h, List.length_take]
    omega
  · intro e
    refine ⟨rfl, ?_, rfl, rfl⟩
    have h : (pySlice80 e).length = (e.data.take 80).length := rfl
    rw [h, List.length_take]
    omega

/-- C4: on a fresh email, `register` hex-encodes the 16 random bytes into a
32-character hex salt, hashes `SHA256(salt || password)`, persists exactly
one new user document — `plan = "free"`, `is_verified = false`, appended to
the user collection, every other collection untouched — and answers with
the token `SHA256(email || salt)` plus the echoed name and plan. -/
theorem register_fresh_creates (db : DB) (req : RegisterRequest) (rand : List Nat)
    (hfresh : find_one (getColl db "user") [("email", .str req.email)] = none)
    (hlen : rand.length = 16) :
    register req rand (some db)
      = (.ok ⟨sha256HexStr (req.email ++ bytesToHex rand), req.name, "free"⟩,
         some (insertDoc db "user" (userToDoc (regUser req rand))))
    ∧ getColl (insertDoc db "user" (userToDoc (regUser req rand))) "user"
        = getColl db "user" ++ [userToDoc (regUser req rand)]
    ∧ (∀ c, c ≠ "user" →
        getColl (insertDoc db "user" (userToDoc (regUser req rand))) c = getColl db c)
    ∧ dictGet (userToDoc (regUser req rand)) "plan" = some (.str "free")
    ∧ dictGet (userToDoc (regUser req rand)) "is_verified" = some (.bool false)
    ∧ dictGet (userToDoc (regUser req rand)) "password_hash"
        = some (.str (sha256HexStr (bytesToHex rand ++ req.password)))
    ∧ (bytesToHex rand).length = 32
    ∧ (∀ c ∈ (bytesToHex rand).data, c ∈ hexDigits) := by
  refine ⟨register_fresh_eq hfresh, getColl_insertDoc_self db "user" _,
    fun c hc => getColl_insertDoc_ne db "user" c _ hc, rfl, rfl, rfl, ?_,
    bytesToHex_hex rand⟩
  rw [bytesToHex_length, hlen]

theorem register_fresh_creates_witness :
    register annReq exRand (some emptyDb)
      = (.ok ⟨sha256HexStr ("ann@x.com" ++ bytesToHex exRand), "Ann", "free"⟩, some annDb)
    ∧ (bytesToHex exRand).length = 32 :=
  ⟨(register_fresh_creates emptyDb annReq exRand (by decide) (by decide)).1,
   (register_fresh_creates emptyDb annReq exRand (by decide) (by decide)).2.2.2.2.2.2.1⟩

/-- C2: login answers 200 exactly when the email lookup finds a stored
document whose `SHA256(stored_salt || given_password)` equals the stored
`password_hash`; in every other case — email unknown or hash mismatch —
the result is the one identical outcome, HTTP 401 "Invalid credentials"
with the store untouched. Stored user documents are assumed well formed
(string salt, name and plan), as `register` writes them. -/
theorem login_success_iff (db : DB) (req : LoginRequest)
    (hwf : ∀ d ∈ getColl db "user", userDocWF d = true) :
    ((∃ a, (login req (some db)).1 = EndpointResult.ok a) ↔ loginSuccessCond db req)
    ∧ (¬ loginSuccessCond db req →
        login req (some db) = (.err 401 "Invalid credentials", some db)) := by
  cases hfo : find_one (getColl db "user") [("email", .str req.email)] with
  | none =>
    constructor
    · constructor
      · rintro ⟨a, ha⟩
        rw [login_not_found hfo] at ha
        simp at ha
      · rintro ⟨d, s, hd, -⟩
        rw [hfo] at hd
        simp at hd
    · intro _
      exact login_not_found hfo
  | some d =>
    have hd := find_one_eq_some hfo
    have hwfd := hwf d hd.1
    simp only [userDocWF, Bool.and_eq_true] at hwfd
    obtain ⟨⟨hwsalt, hwname⟩, hwplan⟩ := hwfd
    cases hs : dictGet d "password_salt" with
    | none => rw [hs] at hwsalt; simp at hwsalt
    | some v =>
      cases v with
      | str s =>
        by_cases hcmp : dictGet d "password_hash" = some (.str (hash_password req.password s))
        · have hrun := (login_found hfo hs).2 hcmp
          cases hn : dictGet d "name" with
          | none => rw [hn] at hwname; simp at hwname
          | some vn =>
            cases vn with
            | str nm =>
              cases hp : dictGetD d "plan" (.str "free") with
              | str pl =>
                rw [hn, hp] at hrun
                constructor
                · constructor
                  · intro _
                    exact ⟨d, s, hfo, hs, hcmp⟩
                  · intro _
                    exact ⟨_, by rw [hrun]⟩
                · intro hc
                  exact absurd ⟨d, s, hfo, hs, hcmp⟩ hc
              | bool b => rw [hp] at hwplan; simp at hwplan
              | null => rw [hp] at hwplan; simp at hwplan
              | strList l => rw [hp] at hwplan; simp at hwplan
            | bool b => rw [hn] at hwname; simp at hwname
            | null => rw [hn] at hwname; simp at hwname
            | strList l => rw [hn] at hwname; simp at hwname
        · have hrun := (login_found hfo hs).1 hcmp
          constructor
          · constructor
            · rintro ⟨a, ha⟩
              rw [hrun] at ha
              simp at ha
            · rintro ⟨d', s', hd', hs', hh'⟩
              rw [hfo] at hd'
              injection hd' with hdd
              subst hdd
              rw [hs] at hs'
              injection hs' with hss
              injection hss with hsss
              subst hsss
              exact absurd hh' hcmp
          · intro _
            exact hrun
      | bool b => rw [hs] at hwsalt; simp at hwsalt
      | null => rw [hs] at hwsalt; simp at hwsalt
      | strList l => rw [hs] at hwsalt; simp at hwsalt

theorem login_success_iff_witness :
    ((∃ a, (login ⟨"ann@x.com", "wrong"⟩ (some exDb)).1 = EndpointResult.ok a)
      ↔ loginSuccessCond exDb ⟨"ann@x.com", "wrong"⟩)
    ∧ (¬ loginSuccessCond exDb ⟨"ann@x.com", "wrong"⟩ →
        login ⟨"ann@x.com", "wrong"⟩ (some exDb)
          = (.err 401 "Invalid credentials", some exDb)) :=
  login_success_iff exDb ⟨"ann@x.com", "wrong"⟩ (by decide)

/-- C9: a successful login echoes the stored document's values — the name
is the stored name, and the plan is the stored plan, with `"free"`
substituted exactly when the stored document lacks a `plan` field. -/
theorem login_returns_stored (db : DB) (req : LoginRequest) (d : Doc) (nm s : String)
    (hfo : find_one (getColl db "user") [("email", .str req.email)] = some d)
    (hsalt : dictGet d "password_salt" = some (.str s))
    (hhash : dictGet d "password_hash" = some (.str (hash_password req.password s)))
    (hname : dictGet d "name" = some (.str nm)) :
    (dictGet d "plan" = none →
      login req (some db) = (.ok ⟨sha256HexStr (req.email ++ s), nm, "free"⟩, some db))
    ∧ (∀ p, dictGet d "plan" = some (.str p) →
        login req (some db) = (.ok ⟨sha256HexStr (req.email ++ s), nm, p⟩, some db)) := by
  have hrun := (login_found hfo hsalt).2 hhash
  rw [hname] at hrun
  constructor
  · intro hp
    have hgd : dictGetD d "plan" (.str "free") = .str "free" := by
      simp only [dictGetD, dictGet] at hp ⊢
      rw [hp]
      rfl
    rw [hgd] at hrun
    exact hrun
  · intro p hp
    have hgd : dictGetD d "plan" (.str "free") = .str p := by
      simp only [dictGetD, dictGet] at hp ⊢
      rw [hp]
      rfl
    rw [hgd] at hrun
    exact hrun

theorem login_returns_stored_witness :
    login ⟨"bob@x.com", "pw2"⟩ (some bobDb)
      = (.ok ⟨sha256HexStr ("bob@x.com" ++ "s2"), "Bob", "free"⟩, some bobDb) :=
  (login_returns_stored bobDb ⟨"bob@x.com", "pw2"⟩ bobDoc "Bob" "s2" rfl rfl rfl rfl).1 rfl

/-- C6: blog detail is served only for a document matching the slug with
`published = true`; whenever no such document exists — never-created slug
or draft alike — the one identical outcome is HTTP 404 "Not found". -/
theorem get_blog_published_only (db : DB) (slug : String) :
    (find_one (getColl db "blogpost") [("slug", .str slug), ("published", .bool true)] = none →
      get_blog slug (some db) = (.err 404 "Not found", some db))
    ∧ (∀ detail st2, get_blog slug (some db) = (.ok detail, st2) →
        ∃ p ∈ getColl db "blogpost",
          dictGet p "slug" = some (.str slug)
          ∧ dictGet p "published" = some (.bool true) ∧ st2 = some db) := by
  constructor
  · intro h
    simp [get_blog, h, pyTruthy]
  · intro detail st2 h
    cases hfo : find_one (getColl db "blogpost")
        [("slug", .str slug), ("published", .bool true)] with
    | none => simp [get_blog, hfo, pyTruthy] at h
    | some p =>
      have hp := find_one_eq_some hfo
      have htr : pyTruthy (some p) = true := pyTruthy_of_find_one hfo
      simp only [get_blog, hfo, htr, Bool.not_true, Bool.false_eq_true, if_false] at h
      refine ⟨p, hp.1, matchesFilter_lookup hp.2 ("slug", .str slug) (by simp),
        matchesFilter_lookup hp.2 ("published", .bool true) (by simp), ?_⟩
      cases hmk : mkBlogDetail p with
      | none => rw [hmk] at h; simp at h
      | some dd =>
        rw [hmk] at h
        simp only [Prod.mk.injEq] at h
        exact h.2.symm

theorem get_blog_published_only_witness :
    get_blog "draft" (some blogDb) = (.err 404 "Not found", some blogDb) :=
  (get_blog_published_only blogDb "draft").1 (by decide)

/-- C7: a 200 answer of the blog list holds at most 50 summaries, each of
which is built from a stored document whose `published` field is `true`;
and summaries never depend on the `content` field (building one from a
document with all `content` bindings removed gives the same summary). -/
theorem list_blog_published_bound (db : DB) (l : List BlogSummary)
    (h : (list_blog (some db)).1 = .ok l) :
    l.length ≤ 50
    ∧ (∀ s ∈ l, ∃ p ∈ getColl db "blogpost",
        dictGet p "published" = some (.bool true) ∧ mkBlogSummary p = some s)
    ∧ (∀ p : Doc, mkBlogSummary (eraseContent p) = mkBlogSummary p) := by
  simp only [list_blog] at h
  cases hb : buildSummaries (get_documents db "blogpost" [("published", .bool true)] 50) with
  | none => rw [hb] at h; simp at h
  | some res =>
    rw [hb] at h
    simp only [EndpointResult.ok.injEq] at h
    subst h
    refine ⟨?_, ?_, fun p => mkBlogSummary_eraseContent p⟩
    · rw [buildSummaries_length hb]
      simp only [get_documents, List.length_take]
      omega
    · intro s hs
      obtain ⟨p, hpmem, hpmk⟩ := buildSummaries_mem hb hs
      simp only [get_documents] at hpmem
      have hmem := List.mem_of_mem_take hpmem
      rw [List.mem_filter] at hmem
      exact ⟨p, hmem.1,
        matchesFilter_lookup hmem.2 ("published", .bool true) (by simp), hpmk⟩

theorem list_blog_published_bound_witness :
    [(⟨"Hello", "hello", "E", [], "Team", none⟩ : BlogSummary)].length ≤ 50
    ∧ (∀ s ∈ [(⟨"Hello", "hello", "E", [], "Team", none⟩ : BlogSummary)],
        ∃ p ∈ getColl blogDb "blogpost",
          dictGet p "published" = some (.bool true) ∧ mkBlogSummary p = some s)
    ∧ (∀ p : Doc, mkBlogSummary (eraseContent p) = mkBlogSummary p) :=
  list_blog_published_bound blogDb [⟨"Hello", "hello", "E", [], "Team", none⟩] (by decide)

/-- C3: the token issued at registration is `SHA256(email || salt)`
hex-encoded — no function of the password — and any password that later
logs in on the resulting store receives that very token back. -/
theorem register_login_token (db : DB) (req : RegisterRequest) (rand : List Nat)
    (pw : String) (a1 a2 : AuthResponse) (st1 st2 : Option DB)
    (hfresh : find_one (getColl db "user") [("email", .str req.email)] = none)
    (hreg : register req rand (some db) = (.ok a1, st1))
    (hlog : login ⟨req.email, pw⟩ st1 = (.ok a2, st2)) :
    a1.token = sha256HexStr (req.email ++ bytesToHex rand) ∧ a2.token = a1.token := by
  rw [register_fresh_eq hfresh] at hreg
  simp only [Prod.mk.injEq, EndpointResult.ok.injEq] at hreg
  obtain ⟨ha1, hst1⟩ := hreg
  subst ha1
  subst hst1
  have hem : dictGet (userToDoc (regUser req rand)) "email" = some (.str req.email) := by
    rw [userToDoc_email]
    rfl
  have hm : matchesFilter [("email", Value.str req.email)] (userToDoc (regUser req rand))
      = true := by
    simp [matchesFilter, hem]
  have hfo2 : find_one (getColl (insertDoc db "user" (userToDoc (regUser req rand))) "user")
      [("email", .str req.email)] = some (userToDoc (regUser req rand)) := by
    rw [getColl_insertDoc_self, find_one_append_singleton hfresh]
    simp [hm]
  have hsalt2 : dictGet (userToDoc (regUser req rand)) "password_salt"
      = some (.str (bytesToHex rand)) := by
    rw [userToDoc_salt]
    rfl
  exact ⟨rfl, @login_ok_token (insertDoc db "user" (userToDoc (regUser req rand)))
    ⟨req.email, pw⟩ (userToDoc (regUser req rand)) (bytesToHex rand) a2 st2
    hfo2 hsalt2 hlog⟩

set_option maxRecDepth 100000 in
set_option maxHeartbeats 2000000 in
theorem register_login_token_witness :
    (⟨sha256HexStr ("ann@x.com" ++ bytesToHex exRand), "Ann", "free"⟩ : AuthResponse).token
      = sha256HexStr ("ann@x.com" ++ bytesToHex exRand)
    ∧ (⟨sha256HexStr ("ann@x.com" ++ bytesToHex exRand), "Ann", "free"⟩ : AuthResponse).token
      = (⟨sha256HexStr ("ann@x.com" ++ bytesToHex exRand), "Ann", "free"⟩ : AuthResponse).token :=
  register_login_token emptyDb annReq exRand "pw1"
    ⟨sha256HexStr ("ann@x.com" ++ bytesToHex exRand), "Ann", "free"⟩
    ⟨sha256HexStr ("ann@x.com" ++ bytesToHex exRand), "Ann", "free"⟩
    (some annDb) (some annDb) (by decide) rfl rfl

end SaaS
